import Mathlib

/-!
Verification of the minirack-pi status-panel controller (`src/main.py`).

The Python source is shallowly embedded below: each Python function that the
claims touch becomes a Lean definition with the same name (where Lean allows
it), machine integers become `Int` (Python's `%` on a positive modulus agrees
with `Int.emod`), time stamps become explicit `Int` parameters threaded through
the state, and display side effects become explicit `DrawCall` values.
-/

namespace Minirack

/-- A single `display.draw_text` invocation: the text drawn and its position. -/
structure DrawCall where
  text : String
  pos : Int × Int
deriving DecidableEq, Repr

/-! ## ModeStateMachine (`src/main.py` lines 123-182) -/

/-- Source `ModeStateMachine.MODES` (line 124). -/
def MODES : List String := ["Off", "NWS Balloon", "HAM Balloon", "ADS-B", "APRS"]

/-- The mutable fields of `ModeStateMachine`: `selected_mode_index`,
`active_mode_index` and `last_knob_time` (lines 127-130).  Indices are Python
ints; `last_knob_time` is the event-loop monotonic clock value. -/
structure ModeState where
  selected_mode_index : Int
  active_mode_index : Int
  last_knob_time : Int
deriving DecidableEq, Repr

/-- Source `self.timeout_seconds = 5` (line 131). -/
def timeout_seconds : Int := 5

/-- Source `get_selected_mode` (lines 149-150): `MODES[selected_mode_index]`. -/
def get_selected_mode (s : ModeState) : String :=
  (MODES.get? s.selected_mode_index.toNat).getD ""

/-- Source `get_active_mode` (lines 152-153): `MODES[active_mode_index]`. -/
def get_active_mode (s : ModeState) : String :=
  (MODES.get? s.active_mode_index.toNat).getD ""

/-- Source `next_mode` (lines 143-147): advance `selected_mode_index` by `direction`
modulo `len(MODES)` and reset `last_knob_time` to now. -/
def next_mode (now : Int) (direction : Int) (s : ModeState) : ModeState :=
  { s with
    selected_mode_index := (s.selected_mode_index + direction) % (MODES.length : Int)
    last_knob_time := now }

/-- The draw issued by `update_display` (lines 175-178). -/
def update_display_draw (s : ModeState) : DrawCall :=
  ⟨"Mode: (" ++ get_selected_mode s ++ ")", (0, 0)⟩

/-- Source `activate` (lines 155-163): set `active_mode_index := selected_mode_index`
and reset `last_knob_time`. -/
def activate (now : Int) (s : ModeState) : ModeState :=
  { s with
    active_mode_index := s.selected_mode_index
    last_knob_time := now }

/-- The two draws issued at the end of `activate` (lines 161-163), computed
from the post-assignment state. -/
def activate_draws (s : ModeState) : List DrawCall :=
  [⟨"Mode: " ++ get_active_mode s, (0, 0)⟩,
   ⟨if s.active_mode_index = 0 then "Deactivating..." else "Activating...", (0, 24)⟩]

/-- Source `handle_event` (lines 165-173): resets `last_knob_time`, then dispatches on
the event string. -/
def handle_event (now : Int) (event : String) (s : ModeState) : ModeState :=
  let s' : ModeState := { s with last_knob_time := now }
  if event = "knob_forward" then next_mode now 1 s'
  else if event = "knob_backward" then next_mode now (-1) s'
  else if event = "button_pressed" then activate now s'
  else s'

/-- The draw issued by `display_active_mode` (lines 180-182). -/
def display_active_mode_draw (s : ModeState) : DrawCall :=
  ⟨"Mode: " ++ get_active_mode s, (0, 0)⟩

/-- One tick of `monitor_inactivity` (lines 136-141): after the 1-second sleep,
if `now - last_knob_time > timeout_seconds` it calls `display_active_mode`,
otherwise it does nothing. -/
def monitor_inactivity_tick (now : Int) (s : ModeState) : Option DrawCall :=
  if now - s.last_knob_time > timeout_seconds then
    some (display_active_mode_draw s)
  else
    none

/-- Iterates `k` consecutive `knob_forward` events through `handle_event`. -/
def rotate_forward_k (now : Int) : Nat → ModeState → ModeState
  | 0, s => s
  | k + 1, s => rotate_forward_k now k (handle_event now "knob_forward" s)

/-! ## InputNormalizer (`input`, `src/main.py` lines 185-197) -/

/-- Constant `evdev.ecodes.EV_KEY`. -/
def EV_KEY : Nat := 1

/-- Constant `evdev.ecodes.EV_REL`. -/
def EV_REL : Nat := 2

/-- Constant `evdev.ecodes.KEY_A`, the configured confirm key code (line 194). -/
def KEY_A : Nat := 30

/-- One raw evdev sample: `event.type`, `event.code`, `event.value`. -/
structure RawSample where
  type : Nat
  code : Nat
  value : Int
deriving DecidableEq, Repr

/-- The two input devices bound at module level (lines 263-264). -/
inductive Device where
  | rotary_knob
  | button
deriving DecidableEq, Repr

/-- The per-sample body of the `input` coroutine (lines 185-197): the event
name put on `event_queue`, or `none` when the sample is ignored.  For the
rotary device an `EV_REL` sample maps to `knob_forward` when `value > 0`, else
`knob_backward`; for the button device an `EV_KEY` sample with code `KEY_A`
maps to `button_pressed` when `value == 1`, else `button_released`; everything
else produces no event. -/
def input_sample (device : Device) (e : RawSample) : Option String :=
  if device = Device.rotary_knob ∧ e.type = EV_REL then
    some (if e.value > 0 then "knob_forward" else "knob_backward")
  else if device = Device.button ∧ e.type = EV_KEY then
    if e.code = KEY_A then
      some (if e.value = 1 then "button_pressed" else "button_released")
    else none
  else none

/-- The key mapping exactly as the spec words it (§4.1): `Confirm` on a rising
edge (a sample with value 1, the 0→1 transition), `Release` on a falling edge
(a sample with value 0), nothing for any other value or code.  Stated only to
be compared with `input_sample`. -/
def spec_key_event (code : Nat) (value : Int) : Option String :=
  if code = KEY_A then
    if value = 1 then some "button_pressed"
    else if value = 0 then some "button_released"
    else none
  else none

/-! ## Device discovery and startup (`find_input_device`, lines 51-63, and the
module-level setup at lines 262-271) -/

/-- Test `startsWithChars l p` is true when `p` is an initial segment of `l`. -/
def startsWithChars : List Char → List Char → Bool
  | _, [] => true
  | [], _ :: _ => false
  | c :: cs, p :: ps => c = p && startsWithChars cs ps

/-- Test `hasSubChars l p` is true when `p` occurs contiguously inside `l`. -/
def hasSubChars : List Char → List Char → Bool
  | [], pat => pat.isEmpty
  | c :: cs, pat => startsWithChars (c :: cs) pat || hasSubChars cs pat

/-- Python's `pat in s` substring test on strings. -/
def containsStr (s pat : String) : Bool :=
  hasSubChars s.data pat.data

/-- Source `find_input_device` (lines 51-63) over the entries of
`/dev/input/by-path`: returns the first entry containing `pattern`, and
otherwise the `FileNotFoundError` of line 61, which — being an `OSError` — is
caught by line 62 and re-raised as the `RuntimeError` of line 63. -/
def find_input_device (pattern : String) (entries : List String) :
    Except String String :=
  match entries.find? (fun p => containsStr p pattern) with
  | some p => Except.ok p
  | none =>
      Except.error ("Error accessing device: No device found matching pattern: "
        ++ pattern)

/-- Outcome of process startup: either the module-level device setup raised and
the process aborted, or both devices were bound and `asyncio.run(main())` was
reached (the event loop started). -/
inductive ProgramStart where
  | aborted (msg : String)
  | eventLoopStarted (rotary button : String)
deriving DecidableEq, Repr

/-- The module-level sequence of lines 262-271: `find_input_device
"platform-rotary"`, then `find_input_device "platform-button"`, then
`asyncio.run(main())`.  An exception from either lookup propagates before the
event loop starts. -/
def program_start (entries : List String) : ProgramStart :=
  match find_input_device "platform-rotary" entries with
  | Except.error m => ProgramStart.aborted m
  | Except.ok r =>
      match find_input_device "platform-button" entries with
      | Except.error m => ProgramStart.aborted m
      | Except.ok b => ProgramStart.eventLoopStarted r b

/-! ## Network status (`src/main.py` lines 16-49 and 208-236) -/

/-- Constant `ICON_WIFI` (line 17). -/
def ICON_WIFI : String := (Char.ofNat 61931).toString

/-- Constant `ICON_ETH` (line 18). -/
def ICON_ETH : String := (Char.ofNat 61927).toString

/-- Constant `ICON_NO_CONN` (line 19). -/
def ICON_NO_CONN : String := (Char.ofNat 61928).toString

/-- Constant `socket.AF_INET`. -/
def AF_INET : Nat := 2

/-- One address record of `psutil.net_if_addrs()`: its family and address. -/
structure IfAddr where
  family : Nat
  address : String
deriving DecidableEq, Repr

/-- One entry of the `psutil.net_if_addrs()` dict: interface name and its
address list, in enumeration order. -/
structure Iface where
  name : String
  addrs : List IfAddr
deriving DecidableEq, Repr

/-- Lookup `psutil.net_if_addrs().get(interface, [])` (line 45). -/
def net_if_addrs_get (interfaces : List Iface) (interface : String) :
    List IfAddr :=
  match interfaces.find? (fun i => i.name = interface) with
  | some i => i.addrs
  | none => []

/-- Source `get_ip_address` (lines 43-49): the first `AF_INET` address of the
interface, or `None`. -/
def get_ip_address (interfaces : List Iface) (interface : String) :
    Option String :=
  ((net_if_addrs_get interfaces interface).find?
    (fun a => a.family = AF_INET)).map IfAddr.address

/-- The first `for` loop of `get_network_status` (lines 26-31): scan the
interfaces in order, and on the first one whose name contains `"eth"` or
`"en"` and that has an IPv4 address, return the Ethernet icon with that
address. -/
def eth_scan (interfaces : List Iface) : List Iface → Option (String × String)
  | [] => none
  | i :: rest =>
    if containsStr i.name "eth" || containsStr i.name "en" then
      match get_ip_address interfaces i.name with
      | some ip => some (ICON_ETH, ip)
      | none => eth_scan interfaces rest
    else eth_scan interfaces rest

/-- The second `for` loop of `get_network_status` (lines 33-38), over `"wlan"`
and `"wifi"` names. -/
def wifi_scan (interfaces : List Iface) : List Iface → Option (String × String)
  | [] => none
  | i :: rest =>
    if containsStr i.name "wlan" || containsStr i.name "wifi" then
      match get_ip_address interfaces i.name with
      | some ip => some (ICON_WIFI, ip)
      | none => wifi_scan interfaces rest
    else wifi_scan interfaces rest

/-- The combined success test of one Ethernet-loop iteration: the interface
name contains "eth" or "en" and the interface has an IPv4 address. -/
def eth_candidate (interfaces : List Iface) (i : Iface) : Bool :=
  (containsStr i.name "eth" || containsStr i.name "en")
    && (get_ip_address interfaces i.name).isSome

/-- Source `get_network_status` (lines 21-41): Ethernet scan first, then Wi-Fi scan,
then `(ICON_NO_CONN, "Not Connected")`. -/
def get_network_status (interfaces : List Iface) : String × String :=
  match eth_scan interfaces interfaces with
  | some r => r
  | none =>
      match wifi_scan interfaces interfaces with
      | some r => r
      | none => (ICON_NO_CONN, "Not Connected")

/-- Source `get_wifi_ssid` (lines 208-214), with the `iwgetid -r` invocation made
explicit: a `CalledProcessError` yields `None`, otherwise the stripped output,
mapped to `None` when falsy (empty). -/
def get_wifi_ssid (cmd_output : Except Unit String) : Option String :=
  match cmd_output with
  | Except.error _ => none
  | Except.ok out =>
      let ssid := out.trim
      if ssid = "" then none else some ssid

/-- What one iteration of the `update_network_status` loop (lines 220-236)
leaves behind: the text drawn next to the icon, whether the icon was redrawn,
and the `show_ip` toggle for the next cycle. -/
structure NetTick where
  display_text : String
  icon_redrawn : Bool
  show_ip_next : Bool
deriving DecidableEq, Repr

/-- One iteration of `update_network_status` (lines 220-236).  `ssid_cmd` is
the outcome the `iwgetid -r` call would have on this tick; it is only consulted
when the icon is the Wi-Fi icon (line 222). -/
def update_network_status_tick (interfaces : List Iface)
    (ssid_cmd : Except Unit String) (last_icon last_ip last_ssid : Option String)
    (show_ip : Bool) : NetTick :=
  let st := get_network_status interfaces
  let icon := st.1
  let ip := st.2
  let ssid := if icon = ICON_WIFI then get_wifi_ssid ssid_cmd else none
  let redraw := some icon ≠ last_icon ∨ some ip ≠ last_ip ∨ ssid ≠ last_ssid
  if icon = ICON_WIFI ∧ ssid.isSome then
    { display_text := if show_ip then ip else ssid.getD ""
      icon_redrawn := decide redraw
      show_ip_next := !show_ip }
  else
    { display_text := ip
      icon_redrawn := decide redraw
      show_ip_next := show_ip }

/-! ## RenderCoordinator (spec §4.3; no counterpart exists in `src/main.py`,
where every component draws on the display directly) -/

/-- Modelled from the spec: the `RenderRequest` variants of §3 — the repository
source has no RenderCoordinator or render queue, so the request type is taken
from the spec's data model.  Each variant carries the content drawn into the
region it clears; `FullRefresh` carries content for the whole frame. -/
inductive RenderRequest where
  | pageIndicatorOnly (content : String)
  | statusLineOnly (content : String)
  | fullRefresh (page status rest : String)
deriving DecidableEq, Repr

/-- Modelled from the spec: the visible 128×64 frame, split into the page
indicator region, the status line region, and the remainder — the finest
partition the spec's three request variants distinguish. -/
structure Frame where
  pageRegion : String
  statusRegion : String
  restRegion : String
deriving DecidableEq, Repr

/-- Modelled from the spec: servicing one `RenderRequest` clears the request's
region and draws its content; a `FullRefresh` repaints the entire frame
including both narrower regions (§4.3). -/
def applyRequest (f : Frame) : RenderRequest → Frame
  | RenderRequest.pageIndicatorOnly c => { f with pageRegion := c }
  | RenderRequest.statusLineOnly c => { f with statusRegion := c }
  | RenderRequest.fullRefresh p s r => ⟨p, s, r⟩

/-- Modelled from the spec: the RenderCoordinator draining a queue of requests
in FIFO order against the current frame. -/
def drainQueue (f : Frame) (q : List RenderRequest) : Frame :=
  q.foldl applyRequest f

/-- Whether a request is a `FullRefresh`. -/
def isFullRefresh : RenderRequest → Bool
  | RenderRequest.fullRefresh _ _ _ => true
  | _ => false

/-- Modelled from the spec: the §4.3 skip optimization — while a `FullRefresh`
is still pending later in the queue, narrower requests ahead of it are
skipped; from the last `FullRefresh` on, everything is serviced in order. -/
def coalesceQueue : List RenderRequest → List RenderRequest
  | [] => []
  | r :: rest =>
    if !isFullRefresh r && rest.any isFullRefresh then coalesceQueue rest
    else r :: coalesceQueue rest

/-! ## Helper lemmas about the state machine -/

lemma handle_event_forward (now : Int) (s : ModeState) :
    handle_event now "knob_forward" s =
      { s with selected_mode_index := (s.selected_mode_index + 1) % 5,
               last_knob_time := now } := rfl

lemma rotate_forward_selected (now : Int) (k : Nat) :
    ∀ s : ModeState, 0 ≤ s.selected_mode_index → s.selected_mode_index < 5 →
      (rotate_forward_k now k s).selected_mode_index =
        (s.selected_mode_index + (k : Int)) % 5 := by
  induction k with
  | zero =>
    intro s h0 h5
    simp [rotate_forward_k]
    omega
  | succ k ih =>
    intro s h0 h5
    rw [rotate_forward_k, handle_event_forward]
    have hsel :
        ({ s with
            selected_mode_index := (s.selected_mode_index + 1) % 5
            last_knob_time := now } : ModeState).selected_mode_index =
          (s.selected_mode_index + 1) % 5 := rfl
    rw [ih _ (by rw [hsel]; omega) (by rw [hsel]; omega), hsel]
    omega

/-! ## Claim theorems -/

/-- C2: for every starting index `i` in `[0,5)` and every `k ≥ 0`, handling
`k` consecutive `knob_forward` events leaves
`selected_mode_index = (i + k) mod 5`; the wrap-around and ADS-B scenarios
are the instances `i = 0, k = 5` and `i = 0, k = 3` (see the witness). -/
theorem rotate_forward_mod (now a t i : Int) (k : Nat)
    (h0 : 0 ≤ i) (h5 : i < 5) :
    (rotate_forward_k now k ⟨i, a, t⟩).selected_mode_index = (i + (k : Int)) % 5 :=
  rotate_forward_selected now k ⟨i, a, t⟩ h0 h5

/-- Witness for C2: from `selected_index = 0`, five rotations wrap back to 0
and three rotations reach index 3, whose mode name is "ADS-B". -/
theorem rotate_forward_mod_witness :
    (rotate_forward_k 0 5 ⟨0, 0, 0⟩).selected_mode_index = 0 ∧
    (rotate_forward_k 0 3 ⟨0, 0, 0⟩).selected_mode_index = 3 ∧
    get_selected_mode (rotate_forward_k 0 3 ⟨0, 0, 0⟩) = "ADS-B" := by
  have h5 := rotate_forward_mod 0 0 0 0 5 (by decide) (by decide)
  have h3 := rotate_forward_mod 0 0 0 0 3 (by decide) (by decide)
  refine ⟨by rw [h5]; decide, by rw [h3]; decide, ?_⟩
  simp only [get_selected_mode, h3]
  decide

/-- C3: handling `button_pressed` sets `active_mode_index` to
`selected_mode_index`; a second Confirm immediately after (same timestamp, no
intervening rotation) leaves the state unchanged, and even at a later
timestamp the second Confirm issues the identical display draws. -/
theorem confirm_idempotent (now now' : Int) (s : ModeState) :
    (handle_event now "button_pressed" s).active_mode_index =
      s.selected_mode_index ∧
    handle_event now "button_pressed" (handle_event now "button_pressed" s) =
      handle_event now "button_pressed" s ∧
    activate_draws (handle_event now' "button_pressed"
        (handle_event now "button_pressed" s)) =
      activate_draws (handle_event now "button_pressed" s) :=
  ⟨rfl, rfl, rfl⟩

/-- C4: every `handle_event` keeps both indices in `[0,5)`;
`active_mode_index` changes only on `button_pressed`, where it becomes the
selected index, and `selected_mode_index` changes only on the rotate events,
wrapping modulo 5 in each direction. -/
theorem mode_state_invariant (now : Int) (e : String) (s : ModeState)
    (hs0 : 0 ≤ s.selected_mode_index) (hs5 : s.selected_mode_index < 5)
    (ha0 : 0 ≤ s.active_mode_index) (ha5 : s.active_mode_index < 5) :
    (0 ≤ (handle_event now e s).selected_mode_index ∧
      (handle_event now e s).selected_mode_index < 5) ∧
    (0 ≤ (handle_event now e s).active_mode_index ∧
      (handle_event now e s).active_mode_index < 5) ∧
    (handle_event now e s).active_mode_index =
      (if e = "button_pressed" then s.selected_mode_index
       else s.active_mode_index) ∧
    (handle_event now e s).selected_mode_index =
      (if e = "knob_forward" then (s.selected_mode_index + 1) % 5
       else if e = "knob_backward" then (s.selected_mode_index - 1) % 5
       else s.selected_mode_index) := by
  by_cases h1 : e = "knob_forward"
  · subst h1
    refine ⟨⟨?_, ?_⟩, ⟨ha0, ha5⟩, rfl, rfl⟩
    · show 0 ≤ (s.selected_mode_index + 1) % (5 : Int)
      omega
    · show (s.selected_mode_index + 1) % (5 : Int) < 5
      omega
  · by_cases h2 : e = "knob_backward"
    · subst h2
      refine ⟨⟨?_, ?_⟩, ⟨ha0, ha5⟩, rfl, rfl⟩
      · show 0 ≤ (s.selected_mode_index + -1) % (5 : Int)
        omega
      · show (s.selected_mode_index + -1) % (5 : Int) < 5
        omega
    · by_cases h3 : e = "button_pressed"
      · subst h3
        exact ⟨⟨hs0, hs5⟩, ⟨hs0, hs5⟩, rfl, rfl⟩
      · simp only [handle_event, next_mode, activate, if_neg h1, if_neg h2,
          if_neg h3]
        refine ⟨⟨hs0, hs5⟩, ⟨ha0, ha5⟩, ?_, ?_⟩ <;> trivial

/-- Witness for C4: a backward rotation from index 0 wraps to 4 and leaves the
active index untouched. -/
theorem mode_state_invariant_witness :
    (handle_event 7 "knob_backward" (⟨0, 2, 0⟩ : ModeState)).selected_mode_index
        = 4 ∧
    (handle_event 7 "knob_backward" (⟨0, 2, 0⟩ : ModeState)).active_mode_index
        = 2 := by
  have h := mode_state_invariant 7 "knob_backward" ⟨0, 2, 0⟩
    (by decide) (by decide) (by decide) (by decide)
  constructor
  · rw [h.2.2.2]; decide
  · rw [h.2.2.1]; decide

/-- C1 counterexample: with `selected_mode_index = active_mode_index = 0` and
6 seconds elapsed since the last interaction, the watcher tick still emits the
revert draw — contradicting the claim that it never fires when
`selected_index == active_index` (the code checks only the elapsed time, never
what the display currently shows). -/
theorem monitor_inactivity_fires_on_active :
    (⟨0, 0, 0⟩ : ModeState).selected_mode_index =
        (⟨0, 0, 0⟩ : ModeState).active_mode_index ∧
    (6 : Int) - (⟨0, 0, 0⟩ : ModeState).last_knob_time > timeout_seconds ∧
    monitor_inactivity_tick 6 ⟨0, 0, 0⟩ = some ⟨"Mode: Off", (0, 0)⟩ := by
  decide

/-- C1 (amended): the 1-second watcher tick emits the render reverting to the
active mode exactly when elapsed time since the last interaction exceeds the
5-second timeout, unconditionally — it does not consult what the display shows
and fires even when `selected_index == active_index`; the emitted draw shows
the active mode, and every handled interaction event resets
`last_knob_time` to the interaction's timestamp (the clock measures time since
the last interaction, not since activation). -/
theorem monitor_inactivity_iff (now : Int) (s : ModeState) :
    (monitor_inactivity_tick now s ≠ none ↔
      now - s.last_knob_time > timeout_seconds) ∧
    (∀ d, monitor_inactivity_tick now s = some d →
      d = ⟨"Mode: " ++ get_active_mode s, (0, 0)⟩) ∧
    (∀ e, (handle_event now e s).last_knob_time = now) := by
  refine ⟨?_, ?_, ?_⟩
  · unfold monitor_inactivity_tick
    by_cases h : now - s.last_knob_time > timeout_seconds
    · simp [h]
    · simp [h]
  · intro d hd
    unfold monitor_inactivity_tick at hd
    by_cases h : now - s.last_knob_time > timeout_seconds
    · rw [if_pos h] at hd
      exact (Option.some.injEq _ _ ▸ hd).symm
    · rw [if_neg h] at hd
      exact absurd hd (by simp)
  · intro e
    unfold handle_event
    by_cases h1 : e = "knob_forward"
    · simp [h1, next_mode]
    · by_cases h2 : e = "knob_backward"
      · simp [h1, h2, next_mode]
      · by_cases h3 : e = "button_pressed"
        · simp [h1, h2, h3, activate]
        · simp [h1, h2, h3]

/-- Witness for C1 (amended): at state `(1, 2, 0)` and time 10 the tick fires
and draws the active mode "HAM Balloon"; a rotation at time 10 resets the
interaction clock to 10. -/
theorem monitor_inactivity_iff_witness :
    (⟨"Mode: HAM Balloon", (0, 0)⟩ : DrawCall) =
      ⟨"Mode: " ++ get_active_mode ⟨1, 2, 0⟩, (0, 0)⟩ ∧
    (handle_event 10 "knob_forward" (⟨1, 2, 0⟩ : ModeState)).last_knob_time
        = 10 := by
  have h := monitor_inactivity_iff 10 ⟨1, 2, 0⟩
  exact ⟨h.2.1 ⟨"Mode: HAM Balloon", (0, 0)⟩ (by decide), h.2.2 "knob_forward"⟩

/-- C5 counterexample: an autorepeat sample of the confirm key (`value = 2`)
is neither a rising edge (value 1) nor a falling edge (value 0), yet the code
maps it to `button_released`; the mapping as the spec words it (Release
exactly on a falling edge) produces no event for it. -/
theorem input_sample_autorepeat :
    input_sample Device.button ⟨EV_KEY, KEY_A, 2⟩ = some "button_released" ∧
    spec_key_event KEY_A 2 = none ∧
    (2 : Int) ≠ 1 ∧ (2 : Int) ≠ 0 := by
  decide

/-- C5 (amended): the rotary mapping is as claimed (`knob_forward` iff the
relative sample's value is positive, `knob_backward` otherwise); for the
confirm key code the code emits `button_pressed` exactly when the sample's
value equals 1 and `button_released` for every other value — including
autorepeat value 2, not only on a falling edge — and key samples with any
other code produce no event. -/
theorem input_sample_characterization (e : RawSample) :
    (input_sample Device.rotary_knob e = some "knob_forward" ↔
      e.type = EV_REL ∧ e.value > 0) ∧
    (input_sample Device.rotary_knob e = some "knob_backward" ↔
      e.type = EV_REL ∧ ¬e.value > 0) ∧
    (input_sample Device.button e = some "button_pressed" ↔
      e.type = EV_KEY ∧ e.code = KEY_A ∧ e.value = 1) ∧
    (input_sample Device.button e = some "button_released" ↔
      e.type = EV_KEY ∧ e.code = KEY_A ∧ e.value ≠ 1) ∧
    (e.code ≠ KEY_A → input_sample Device.button e = none) := by
  obtain ⟨t, c, v⟩ := e
  unfold input_sample
  refine ⟨?_, ?_, ?_, ?_, ?_⟩
  · by_cases ht : t = EV_REL
    · by_cases hv : v > 0 <;> simp [ht, hv]
    · simp [ht]
  · by_cases ht : t = EV_REL
    · by_cases hv : v > 0 <;> simp [ht, hv]
    · simp [ht]
  · by_cases ht : t = EV_KEY
    · by_cases hc : c = KEY_A
      · by_cases hv : v = 1 <;>
          simp [ht, hc, hv, show ¬(EV_KEY = EV_REL) by decide,
            show Device.button ≠ Device.rotary_knob by decide]
      · simp [ht, hc, show ¬(EV_KEY = EV_REL) by decide,
          show Device.button ≠ Device.rotary_knob by decide]
    · simp [ht, show Device.button ≠ Device.rotary_knob by decide]
  · by_cases ht : t = EV_KEY
    · by_cases hc : c = KEY_A
      · by_cases hv : v = 1 <;>
          simp [ht, hc, hv, show ¬(EV_KEY = EV_REL) by decide,
            show Device.button ≠ Device.rotary_knob by decide]
      · simp [ht, hc, show ¬(EV_KEY = EV_REL) by decide,
          show Device.button ≠ Device.rotary_knob by decide]
    · simp [ht, show Device.button ≠ Device.rotary_knob by decide]
  · intro hc
    by_cases ht : t = EV_KEY
    · simp [ht, hc, show ¬(EV_KEY = EV_REL) by decide,
        show Device.button ≠ Device.rotary_knob by decide]
    · simp [ht, show Device.button ≠ Device.rotary_knob by decide]

/-- Witness for C5 (amended): a positive relative sample normalizes to
`knob_forward`, and a key sample with a non-confirm code is dropped. -/
theorem input_sample_characterization_witness :
    input_sample Device.rotary_knob ⟨EV_REL, 0, 3⟩ = some "knob_forward" ∧
    input_sample Device.button ⟨EV_KEY, 5, 1⟩ = none := by
  have h1 := (input_sample_characterization ⟨EV_REL, 0, 3⟩).1
  have h2 := (input_sample_characterization ⟨EV_KEY, 5, 1⟩).2.2.2.2
  exact ⟨h1.mpr (by decide), h2 (by decide)⟩

lemma drainQueue_indep (q : List RenderRequest) :
    q.any isFullRefresh = true → ∀ f g : Frame, drainQueue f q = drainQueue g q := by
  induction q with
  | nil => intro hq; simp at hq
  | cons r rest ih =>
    intro hq f g
    match r with
    | RenderRequest.fullRefresh p s t => rfl
    | RenderRequest.pageIndicatorOnly c =>
        have hrest : rest.any isFullRefresh = true := by
          simpa [isFullRefresh] using hq
        exact ih hrest _ _
    | RenderRequest.statusLineOnly c =>
        have hrest : rest.any isFullRefresh = true := by
          simpa [isFullRefresh] using hq
        exact ih hrest _ _

lemma coalesce_drain (q : List RenderRequest) :
    ∀ f : Frame, drainQueue f (coalesceQueue q) = drainQueue f q := by
  induction q with
  | nil => intro f; rfl
  | cons r rest ih =>
    intro f
    by_cases h : (!isFullRefresh r && rest.any isFullRefresh) = true
    · rw [coalesceQueue, if_pos h, ih f]
      have hrest : rest.any isFullRefresh = true :=
        (Bool.and_eq_true _ _ ▸ h).2
      exact drainQueue_indep rest hrest f (applyRequest f r)
    · rw [coalesceQueue, if_neg h]
      show drainQueue (applyRequest f r) (coalesceQueue rest) =
        drainQueue (applyRequest f r) rest
      exact ih _

/-- C6: a `PageIndicatorOnly` immediately followed by a `FullRefresh` drains
to the same frame as the `FullRefresh` alone (for any remaining queue), and in
general draining the coalesced queue — narrower requests pending ahead of a
queued `FullRefresh` skipped — produces a frame bit-identical to draining the
full queue in FIFO order. -/
theorem render_coalescing_equiv (f : Frame) (q : List RenderRequest)
    (c p s r : String) :
    drainQueue f (RenderRequest.pageIndicatorOnly c ::
        RenderRequest.fullRefresh p s r :: q) =
      drainQueue f (RenderRequest.fullRefresh p s r :: q) ∧
    drainQueue f (coalesceQueue q) = drainQueue f q :=
  ⟨rfl, coalesce_drain q f⟩

lemma eth_scan_none_of (ifs : List Iface) :
    ∀ l : List Iface,
      (∀ i ∈ l, (containsStr i.name "eth" || containsStr i.name "en") = true →
        get_ip_address ifs i.name = none) →
      eth_scan ifs l = none := by
  intro l
  induction l with
  | nil => intro _; rfl
  | cons i rest ih =>
    intro h
    rw [eth_scan]
    by_cases hm : (containsStr i.name "eth" || containsStr i.name "en") = true
    · rw [if_pos hm, h i (List.mem_cons_self i rest) hm]
      exact ih fun j hj => h j (List.mem_cons_of_mem _ hj)
    · rw [if_neg hm]
      exact ih fun j hj => h j (List.mem_cons_of_mem _ hj)

lemma wifi_scan_none_of (ifs : List Iface) :
    ∀ l : List Iface,
      (∀ i ∈ l, (containsStr i.name "wlan" || containsStr i.name "wifi") = true →
        get_ip_address ifs i.name = none) →
      wifi_scan ifs l = none := by
  intro l
  induction l with
  | nil => intro _; rfl
  | cons i rest ih =>
    intro h
    rw [wifi_scan]
    by_cases hm : (containsStr i.name "wlan" || containsStr i.name "wifi") = true
    · rw [if_pos hm, h i (List.mem_cons_self i rest) hm]
      exact ih fun j hj => h j (List.mem_cons_of_mem _ hj)
    · rw [if_neg hm]
      exact ih fun j hj => h j (List.mem_cons_of_mem _ hj)

lemma eth_scan_of_find (ifs : List Iface) :
    ∀ (l : List Iface) (e : Iface) (ip : String),
      l.find? (eth_candidate ifs) = some e →
      get_ip_address ifs e.name = some ip →
      eth_scan ifs l = some (ICON_ETH, ip) := by
  intro l
  induction l with
  | nil => intro e ip h; simp at h
  | cons i rest ih =>
    intro e ip hfind hip
    rw [eth_scan]
    by_cases hm : (containsStr i.name "eth" || containsStr i.name "en") = true
    · rw [if_pos hm]
      cases hipi : get_ip_address ifs i.name with
      | some ip0 =>
          have hpred : eth_candidate ifs i = true := by
            unfold eth_candidate
            rw [hipi, hm]
            rfl
          have hcons : List.find? (eth_candidate ifs) (i :: rest) = some i :=
            List.find?_cons_of_pos _ hpred
          rw [hcons] at hfind
          obtain rfl : i = e := Option.some.inj hfind
          rw [hip] at hipi
          injection hipi with h0
          rw [h0]
      | none =>
          have hpred : ¬ eth_candidate ifs i = true := by
            unfold eth_candidate
            rw [hipi]
            simp
          have hcons : List.find? (eth_candidate ifs) (i :: rest) =
              List.find? (eth_candidate ifs) rest :=
            List.find?_cons_of_neg _ hpred
          rw [hcons] at hfind
          exact ih e ip hfind hip
    · rw [if_neg hm]
      have hpred : ¬ eth_candidate ifs i = true := by
        unfold eth_candidate
        intro hc
        exact hm (Bool.and_eq_true _ _ ▸ hc).1
      have hcons : List.find? (eth_candidate ifs) (i :: rest) =
          List.find? (eth_candidate ifs) rest :=
        List.find?_cons_of_neg _ hpred
      rw [hcons] at hfind
      exact ih e ip hfind hip

/-- C7: Ethernet-type interfaces (names containing "eth" or "en") take
priority: whenever one of them has a live IPv4 address, the reported icon is
the Ethernet icon and the reported address belongs to an Ethernet-type
interface — regardless of any Wi-Fi address; when no interface of either kind
has a live address the result is the no-connection icon with the fixed text
"Not Connected"; the claim's concrete scenario evaluates as stated. -/
theorem network_eth_priority (ifs : List Iface) :
    ((∃ i ∈ ifs, (containsStr i.name "eth" || containsStr i.name "en") = true ∧
        (get_ip_address ifs i.name).isSome = true) →
      (get_network_status ifs).1 = ICON_ETH ∧
      ∃ i ∈ ifs, (containsStr i.name "eth" || containsStr i.name "en") = true ∧
        get_ip_address ifs i.name = some (get_network_status ifs).2) ∧
    ((∀ i ∈ ifs,
        ((containsStr i.name "eth" || containsStr i.name "en") = true →
          get_ip_address ifs i.name = none) ∧
        ((containsStr i.name "wlan" || containsStr i.name "wifi") = true →
          get_ip_address ifs i.name = none)) →
      get_network_status ifs = (ICON_NO_CONN, "Not Connected")) ∧
    get_network_status
        [⟨"eth0", [⟨AF_INET, "10.0.0.5"⟩]⟩, ⟨"wlan0", [⟨AF_INET, "192.168.1.9"⟩]⟩]
      = (ICON_ETH, "10.0.0.5") := by
  refine ⟨?_, ?_, by decide⟩
  · intro hex
    have hsome : (ifs.find? (eth_candidate ifs)).isSome := by
      rw [List.find?_isSome]
      obtain ⟨i, hi, hm, hs⟩ := hex
      refine ⟨i, hi, ?_⟩
      unfold eth_candidate
      rw [hm, hs]
      rfl
    obtain ⟨e, he⟩ := Option.isSome_iff_exists.mp hsome
    have hpe := List.find?_some he
    have hmem := List.mem_of_find?_eq_some he
    unfold eth_candidate at hpe
    obtain ⟨hme, hse⟩ := Bool.and_eq_true _ _ ▸ hpe
    obtain ⟨ip, hip⟩ := Option.isSome_iff_exists.mp hse
    have hscan := eth_scan_of_find ifs ifs e ip he hip
    have hst : get_network_status ifs = (ICON_ETH, ip) := by
      unfold get_network_status
      rw [hscan]
    rw [hst]
    exact ⟨rfl, e, hmem, hme, hip⟩
  · intro hall
    unfold get_network_status
    rw [eth_scan_none_of ifs ifs fun i hi => (hall i hi).1,
      wifi_scan_none_of ifs ifs fun i hi => (hall i hi).2]

/-- Witness for C7: the two-interface scenario reports the Ethernet icon, and
an empty interface table reports "Not Connected". -/
theorem network_eth_priority_witness :
    (get_network_status
        [⟨"eth0", [⟨AF_INET, "10.0.0.5"⟩]⟩, ⟨"wlan0", [⟨AF_INET, "192.168.1.9"⟩]⟩]).1
      = ICON_ETH ∧
    get_network_status [] = (ICON_NO_CONN, "Not Connected") := by
  have h1 := (network_eth_priority
      [⟨"eth0", [⟨AF_INET, "10.0.0.5"⟩]⟩, ⟨"wlan0", [⟨AF_INET, "192.168.1.9"⟩]⟩]).1
  have h2 := (network_eth_priority []).2.1
  exact ⟨(h1 (by decide)).1, h2 (by simp)⟩

/-- C10: the status function returns the Ethernet icon and the IPv4 address of
the first interface in enumeration order whose name contains "eth" or "en"
and that has an IPv4 address — before any wlan/wifi interface is considered;
consequently an interface such as "openvpn0", whose name merely contains
"en", is classified as Ethernet. -/
theorem network_first_eth_match (ifs : List Iface) (e : Iface) (ip : String) :
    (ifs.find? (eth_candidate ifs) = some e →
      get_ip_address ifs e.name = some ip →
      get_network_status ifs = (ICON_ETH, ip)) ∧
    get_network_status [⟨"openvpn0", [⟨AF_INET, "10.8.0.2"⟩]⟩]
      = (ICON_ETH, "10.8.0.2") := by
  constructor
  · intro hfind hip
    unfold get_network_status
    rw [eth_scan_of_find ifs ifs e ip hfind hip]
  · decide

/-- Witness for C10: with Wi-Fi enumerated first and "ens33" second, the
reported address is still the "ens33" one — the first eth/en-named interface
with an IPv4 address. -/
theorem network_first_eth_match_witness :
    get_network_status
        [⟨"wlan0", [⟨AF_INET, "192.168.1.9"⟩]⟩, ⟨"ens33", [⟨AF_INET, "10.0.0.7"⟩]⟩]
      = (ICON_ETH, "10.0.0.7") :=
  (network_first_eth_match
      [⟨"wlan0", [⟨AF_INET, "192.168.1.9"⟩]⟩, ⟨"ens33", [⟨AF_INET, "10.0.0.7"⟩]⟩]
      ⟨"ens33", [⟨AF_INET, "10.0.0.7"⟩]⟩ "10.0.0.7").1 (by decide) (by decide)

/-- C8: when no enumeration entry contains the configured substring, device
lookup produces an error and the process aborts before the event loop is
reached — shown for a missing rotary (with the exact `RuntimeError` message,
since the `FileNotFoundError` of line 61 is an `OSError` and is re-wrapped by
line 63) and for a missing button; by contrast, a raw sample that is not a
relative-motion sample of the rotary, or not a confirm-key key sample of the
button, produces no event and no error — `input_sample` is total. -/
theorem startup_fatal_vs_sample_drop (entries : List String) :
    ((∀ p ∈ entries, containsStr p "platform-rotary" = false) →
      program_start entries = ProgramStart.aborted
        "Error accessing device: No device found matching pattern: platform-rotary") ∧
    ((∀ p ∈ entries, containsStr p "platform-button" = false) →
      ∃ m, program_start entries = ProgramStart.aborted m) ∧
    (∀ e : RawSample, e.type ≠ EV_REL →
      input_sample Device.rotary_knob e = none) ∧
    (∀ e : RawSample, e.type = EV_KEY → e.code ≠ KEY_A →
      input_sample Device.button e = none) ∧
    (∀ e : RawSample, e.type ≠ EV_KEY →
      input_sample Device.button e = none) := by
  refine ⟨?_, ?_, ?_, ?_, ?_⟩
  · intro hr
    have hnone : entries.find? (fun p => containsStr p "platform-rotary") = none :=
      List.find?_eq_none.mpr fun x hx => by simp [hr x hx]
    unfold program_start find_input_device
    rw [hnone]
    rfl
  · intro hb
    have hnone : entries.find? (fun p => containsStr p "platform-button") = none :=
      List.find?_eq_none.mpr fun x hx => by simp [hb x hx]
    unfold program_start find_input_device
    cases hr : entries.find? (fun p => containsStr p "platform-rotary") with
    | none => exact ⟨_, rfl⟩
    | some r =>
        rw [hnone]
        exact ⟨_, rfl⟩
  · intro e ht
    simp [input_sample, ht]
  · intro e ht hc
    simp [input_sample, ht, hc]
  · intro e ht
    simp [input_sample, ht]

/-- Witness for C8: an enumeration holding only a button entry aborts with the
rotary error before the loop; an `EV_SYN` sample on the rotary and a non-
confirm key sample on the button are both dropped. -/
theorem startup_fatal_vs_sample_drop_witness :
    program_start ["platform-button-event"] = ProgramStart.aborted
      "Error accessing device: No device found matching pattern: platform-rotary" ∧
    input_sample Device.rotary_knob ⟨0, 0, 0⟩ = none ∧
    input_sample Device.button ⟨1, 5, 1⟩ = none := by
  have h := startup_fatal_vs_sample_drop ["platform-button-event"]
  exact ⟨h.1 (by decide), h.2.2.1 ⟨0, 0, 0⟩ (by decide),
    h.2.2.2.1 ⟨1, 5, 1⟩ (by decide) (by decide)⟩

/-- C9: on a tick where the connection is Wi-Fi but the SSID query yields no
SSID, the text drawn is the IP address and the `show_ip` toggle is not
advanced; the toggle advances exactly on the ticks where the connection is
Wi-Fi and an SSID is available. -/
theorem wifi_no_ssid_keeps_toggle (ifs : List Iface) (cmd : Except Unit String)
    (li lp ls : Option String) (b : Bool) :
    ((get_network_status ifs).1 = ICON_WIFI → get_wifi_ssid cmd = none →
      (update_network_status_tick ifs cmd li lp ls b).display_text =
        (get_network_status ifs).2 ∧
      (update_network_status_tick ifs cmd li lp ls b).show_ip_next = b) ∧
    ((update_network_status_tick ifs cmd li lp ls b).show_ip_next ≠ b ↔
      (get_network_status ifs).1 = ICON_WIFI ∧ get_wifi_ssid cmd ≠ none) := by
  by_cases hw : (get_network_status ifs).1 = ICON_WIFI
  · cases hs : get_wifi_ssid cmd with
    | none =>
        refine ⟨fun _ _ => ⟨?_, ?_⟩, ?_⟩
        · simp [update_network_status_tick, hw, hs]
        · simp [update_network_status_tick, hw, hs]
        · simp [update_network_status_tick, hw, hs]
    | some s =>
        constructor
        · intro _ hnone
          simp at hnone
        · simp only [update_network_status_tick, hw, hs]
          cases b <;> simp [hw]
  · refine ⟨fun hcontra _ => absurd hcontra hw, ?_⟩
    simp [update_network_status_tick, hw]

/-- Witness for C9: a Wi-Fi-only interface table with a failing `iwgetid`
call shows the IP and leaves the toggle at `true`. -/
theorem wifi_no_ssid_keeps_toggle_witness :
    (update_network_status_tick [⟨"wlan0", [⟨AF_INET, "192.168.1.9"⟩]⟩]
        (Except.error ()) none none none true).display_text
      = (get_network_status [⟨"wlan0", [⟨AF_INET, "192.168.1.9"⟩]⟩]).2 ∧
    (update_network_status_tick [⟨"wlan0", [⟨AF_INET, "192.168.1.9"⟩]⟩]
        (Except.error ()) none none none true).show_ip_next = true := by
  have h := (wifi_no_ssid_keeps_toggle [⟨"wlan0", [⟨AF_INET, "192.168.1.9"⟩]⟩]
      (Except.error ()) none none none true).1
  exact h (by decide) rfl

end Minirack
